import Mathlib

set_option linter.all false

/-!
Verification of the jMetalPy visualization wrapper
(jmetal/util/visualization/plotting.py).

The Python class Plot is embedded shallowly:

* solutions carry the attribute number_of_objectives and the list
  objectives as independent data, exactly as the Python code reads them;
* Python truthiness of optional lists and strings (None and empty values
  are falsy) is modelled by truthyList and truthyStr;
* fallible Python operations (indexing, the None check in get_points)
  return Except String;
* each rendering branch produces a trace of RenderOp values, one for
  every call the wrapper makes into the plotting and dataframe libraries,
  together with one OutputAction describing how the figure leaves the
  function (saved as a static image, saved as an animated gif, or shown
  interactively).
-/

namespace Plotting

/-- A candidate solution. The reported objective count is kept separate
from the stored objective vector because the source reads the attribute
number_of_objectives independently of the list objectives. -/
structure Solution where
  number_of_objectives : Nat
  objectives : List ℚ
  deriving DecidableEq, Repr

/-- The three rendering branches of Plot.plot. -/
inductive Branch where
  | two_dim
  | three_dim
  | pcoords
  deriving DecidableEq, Repr

/-- The state of a Plot instance, fields as assigned in Plot.__init__. -/
structure Plot where
  plot_title : String
  axis_labels : Option (List String)
  reference_point : Option (List ℚ)
  reference_front : Option (List Solution)
  dimension : Option Nat
  deriving DecidableEq, Repr

/-- Plot.__init__: stores the four arguments and sets dimension to None. -/
def Plot.init (plot_title : String) (reference_front : Option (List Solution))
    (reference_point : Option (List ℚ)) (axis_labels : Option (List String)) : Plot :=
  ⟨plot_title, axis_labels, reference_point, reference_front, none⟩

/-- Python truthiness of an optional list: None and [] are falsy. -/
def truthyList {α : Type} : Option (List α) → Bool
  | none => false
  | some l => !l.isEmpty

/-- Python truthiness of an optional string: None and the empty string are falsy. -/
def truthyStr : Option String → Bool
  | none => false
  | some s => !s.isEmpty

/-- Python list indexing: l[i] raises IndexError when out of range. -/
def pyIndex {α : Type} (l : List α) (i : Nat) : Except String α :=
  match l.get? i with
  | some a => Except.ok a
  | none => Except.error "IndexError"

/-- Column count of a pandas DataFrame built from a list of rows:
the longest row determines the number of columns (short rows are padded). -/
def dfCols (rows : List (List ℚ)) : Nat :=
  (rows.map List.length).foldr max 0

/-- Plot.get_points: raises when solutions is None, otherwise builds a
dataframe with one row per solution (the objectives vector) and returns it
together with its column count (points.shape[1]). -/
def Plot.get_points (solutions : Option (List Solution)) :
    Except String (List (List ℚ) × Nat) :=
  match solutions with
  | none => Except.error "Front is none!"
  | some sols =>
      let points := sols.map Solution.objectives
      Except.ok (points, dfCols points)

/-- One call the wrapper makes into the plotting or dataframe library while
rendering. Subplot positions count from 1 as in add_subplot(n, n, i + 1). -/
inductive RenderOp where
  | suptitle (t : String)
  | addSubplot (pos n1 n2 : Nat)
  | scatter2d (pos : Nat) (points : List (List ℚ))
  | refFront2d (pos : Nat) (points : List (List ℚ))
  | refPoint2d (x y : ℚ)
  | xlabel (s : String)
  | ylabel (s : String)
  | setTitle (pos : Nat) (t : String)
  | scatter3d (pos : Nat) (xs ys zs : List ℚ)
  | refFront3d (pos : Nat) (xs ys zs : List ℚ)
  | axStyle3d (pos : Nat)
  | pcoordsPlot (pos : Nat) (points : List (List ℚ))
  | removeLegend (pos : Nat)
  | setXTickLabels (pos : Nat) (ls : List String)
  deriving DecidableEq, Repr

/-- How the figure leaves the rendering function. -/
inductive OutputAction where
  | savefig (filename : String) (fileformat : String) (dpi : Nat)
  | saveGif (filename : String)
  | showFig
  deriving DecidableEq, Repr

/-- The trace of one rendering branch: library calls plus the output action. -/
structure RenderResult where
  ops : List RenderOp
  output : OutputAction
  deriving DecidableEq, Repr

/-- The observable outcome of a successful Plot.plot call: the instance
state after the call, the branch taken, and the rendering trace. -/
structure PlotCall where
  self : Plot
  branch : Branch
  render : RenderResult
  deriving DecidableEq, Repr

/-- The subplot position an operation draws into, when it addresses one. -/
def RenderOp.subplotIdx : RenderOp → Option Nat
  | RenderOp.suptitle _ => none
  | RenderOp.addSubplot pos _ _ => some pos
  | RenderOp.scatter2d pos _ => some pos
  | RenderOp.refFront2d pos _ => some pos
  | RenderOp.refPoint2d _ _ => none
  | RenderOp.xlabel _ => none
  | RenderOp.ylabel _ => none
  | RenderOp.setTitle pos _ => some pos
  | RenderOp.scatter3d pos _ _ _ => some pos
  | RenderOp.refFront3d pos _ _ _ => some pos
  | RenderOp.axStyle3d pos => some pos
  | RenderOp.pcoordsPlot pos _ => some pos
  | RenderOp.removeLegend pos => some pos
  | RenderOp.setXTickLabels pos _ => some pos

/-- Does the operation draw the configured reference point? -/
def RenderOp.isRefPoint : RenderOp → Bool
  | RenderOp.refPoint2d _ _ => true
  | _ => false

/-- Does the operation draw the configured reference front? -/
def RenderOp.isRefFront : RenderOp → Bool
  | RenderOp.refFront2d _ _ => true
  | RenderOp.refFront3d _ _ _ _ => true
  | _ => false

/-- int(np.ceil(np.sqrt(k))) over the naturals: the least n with k <= n * n. -/
def gridSide (k : Nat) : Nat :=
  if k = 0 then 0 else Nat.sqrt (k - 1) + 1

/-- The values present in column j of a dataframe given as a list of rows. -/
def colVals (rows : List (List ℚ)) (j : Nat) : List ℚ :=
  rows.filterMap (fun r => r.get? j)

/-- Minimum of a list of rationals (0 for the empty list). -/
def listMin : List ℚ → ℚ
  | [] => 0
  | x :: xs => xs.foldl min x

/-- Maximum of a list of rationals (0 for the empty list). -/
def listMax : List ℚ → ℚ
  | [] => 0
  | x :: xs => xs.foldl max x

/-- The column-wise min-max normalization
(points - points.min()) / (points.max() - points.min())
computed by the pcoords branch when normalize is True. -/
def minmaxNormalize (rows : List (List ℚ)) : List (List ℚ) :=
  rows.map (fun r =>
    r.mapIdx (fun j x =>
      (x - listMin (colVals rows j)) / (listMax (colVals rows j) - listMin (colVals rows j))))

/-- The objective values of a list of solutions at coordinate j, as read by
the comprehension [s.objectives[j] for s in front]; raises on short vectors. -/
def objCol (j : Nat) : List Solution → Except String (List ℚ)
  | [] => Except.ok []
  | s :: rest => do
      let x ← pyIndex s.objectives j
      let xs ← objCol j rest
      pure (x :: xs)

/-- The for-loop over subplot indices: concatenates the operations emitted
by each iteration, propagating the first raised exception. -/
def loopE (f : Nat → Except String (List RenderOp)) : List Nat → Except String (List RenderOp)
  | [] => Except.ok []
  | i :: rest => do
      let h ← f i
      let t ← loopE f rest
      pure (h ++ t)

/-- Lines 90-91 of the source: set the subplot title when labels is truthy;
indexing labels[i] can raise. -/
def titleOpsCalc (labels : Option (List String)) (i : Nat) : Except String (List RenderOp) :=
  if truthyList labels then
    Except.map (fun t => [RenderOp.setTitle (i + 1) t]) (pyIndex (labels.getD []) i)
  else pure []

/-- Lines 96-97 of the source: draw the reference point when it is truthy,
reading its coordinates 0 and 1. -/
def refPointOpsCalc (p : Plot) : Except String (List RenderOp) :=
  if truthyList p.reference_point then do
    let x ← pyIndex (p.reference_point.getD []) 0
    let y ← pyIndex (p.reference_point.getD []) 1
    pure [RenderOp.refPoint2d x y]
  else pure []

/-- Lines 99-101 of the source: label both axes when axis_labels is truthy,
reading entries 0 and 1. -/
def axisLabelOpsCalc (p : Plot) : Except String (List RenderOp) :=
  if truthyList p.axis_labels then do
    let xl ← pyIndex (p.axis_labels.getD []) 0
    let yl ← pyIndex (p.axis_labels.getD []) 1
    pure [RenderOp.xlabel xl, RenderOp.ylabel yl]
  else pure []

/-- One iteration of the loop of Plot.two_dim: scatter the front on subplot
i + 1, then optionally title, reference front, reference point, axis labels. -/
def twoDimBody (p : Plot) (n : Nat) (reference : Option (List (List ℚ)))
    (fronts : List (List Solution)) (labels : Option (List String)) (i : Nat) :
    Except String (List RenderOp) := do
  let fi ← pyIndex fronts i
  let pr ← Plot.get_points (some fi)
  let titleOps ← titleOpsCalc labels i
  let rpOps ← refPointOpsCalc p
  let axOps ← axisLabelOpsCalc p
  pure ([RenderOp.addSubplot (i + 1) n n, RenderOp.scatter2d (i + 1) pr.1]
    ++ titleOps
    ++ (if truthyList p.reference_front then [RenderOp.refFront2d (i + 1) (reference.getD [])]
        else [])
    ++ rpOps ++ axOps)

/-- Lines 80-82 of the source: the reference front points, fetched once
before the loop when the reference front is truthy. -/
def twoDimReference (p : Plot) : Except String (Option (List (List ℚ))) :=
  if truthyList p.reference_front then
    (Plot.get_points p.reference_front).map (fun pr => some pr.1)
  else pure none

/-- Lines 103-106 of the source: save the figure at dpi 200 when the
filename is truthy, else show it. -/
def twoDimOutput (filename : Option String) (format : String) : OutputAction :=
  if truthyStr filename then OutputAction.savefig (filename.getD "") format 200
  else OutputAction.showFig

/-- Plot.two_dim: scatter plots on an n x n grid with n = ceil(sqrt(#fronts)),
then save or show the figure. The instance is returned unchanged. -/
def Plot.two_dim (p : Plot) (fronts : List (List Solution)) (labels : Option (List String))
    (filename : Option String) (format : String) :
    Except String (Plot × RenderResult) := do
  let reference ← twoDimReference p
  let ops ← loopE (twoDimBody p (gridSide fronts.length) reference fronts labels)
    (List.range fronts.length)
  pure (p, ⟨RenderOp.suptitle p.plot_title :: ops, twoDimOutput filename format⟩)

/-- Lines 130-133 of the source: scatter the reference front in 3D when it
is truthy, reading the three objective coordinates of each of its solutions. -/
def refFront3dOpsCalc (p : Plot) (i : Nat) : Except String (List RenderOp) :=
  if truthyList p.reference_front then do
    let rxs ← objCol 0 (p.reference_front.getD [])
    let rys ← objCol 1 (p.reference_front.getD [])
    let rzs ← objCol 2 (p.reference_front.getD [])
    pure [RenderOp.refFront3d (i + 1) rxs rys rzs]
  else pure []

/-- One iteration of the loop of Plot.three_dim: 3D scatter of the three
objective coordinates, optional title, optional reference front scatter; the
reference point check does nothing (the source body is a pass with a todo). -/
def threeDimBody (p : Plot) (n : Nat) (fronts : List (List Solution))
    (labels : Option (List String)) (i : Nat) : Except String (List RenderOp) := do
  let fi ← pyIndex fronts i
  let xs ← objCol 0 fi
  let ys ← objCol 1 fi
  let zs ← objCol 2 fi
  let titleOps ← titleOpsCalc labels i
  let refOps ← refFront3dOpsCalc p i
  pure ([RenderOp.addSubplot (i + 1) n n, RenderOp.scatter3d (i + 1) xs ys zs]
    ++ titleOps ++ refOps
    ++ (if truthyList p.reference_point then [] else [])
    ++ [RenderOp.axStyle3d (i + 1)])

/-- Lines 144-158 of the source: with a truthy filename, format gif saves an
animated rotation at filename + ".gif" and any other format saves a static
image at dpi 1000; otherwise the figure is shown. -/
def threeDimOutput (filename : Option String) (format : String) : OutputAction :=
  if truthyStr filename then
    if format = "gif" then OutputAction.saveGif (filename.getD "" ++ ".gif")
    else OutputAction.savefig (filename.getD "") format 1000
  else OutputAction.showFig

/-- Plot.three_dim: 3D scatter plots on an n x n grid; with a filename and
format gif an animated rotation is saved to filename + ".gif", with any other
format a static image is saved; without a filename the figure is shown. -/
def Plot.three_dim (p : Plot) (fronts : List (List Solution)) (labels : Option (List String))
    (filename : Option String) (format : String) :
    Except String (Plot × RenderResult) := do
  let ops ← loopE (threeDimBody p (gridSide fronts.length) fronts labels)
    (List.range fronts.length)
  pure (p, ⟨RenderOp.suptitle p.plot_title :: ops, threeDimOutput filename format⟩)

/-- One iteration of the loop of Plot.pcoords: normalize the points of the
front when requested, draw them in parallel coordinates, remove the legend,
optionally relabel the x ticks. -/
def pcoordsBody (p : Plot) (n : Nat) (fronts : List (List Solution)) (normalize : Bool)
    (i : Nat) : Except String (List RenderOp) := do
  let fi ← pyIndex fronts i
  let pr ← Plot.get_points (some fi)
  pure ([RenderOp.addSubplot (i + 1) n n,
    RenderOp.pcoordsPlot (i + 1) (if normalize then minmaxNormalize pr.1 else pr.1),
    RenderOp.removeLegend (i + 1)]
    ++ (if truthyList p.axis_labels then [RenderOp.setXTickLabels (i + 1) (p.axis_labels.getD [])]
        else []))

/-- Lines 186-189 of the source: save at dpi 1000 with a truthy filename,
else show. -/
def pcoordsOutput (filename : Option String) (format : String) : OutputAction :=
  if truthyStr filename then OutputAction.savefig (filename.getD "") format 1000
  else OutputAction.showFig

/-- Plot.pcoords: parallel-coordinate plots on an n x n grid, then save or
show the figure. -/
def Plot.pcoords (p : Plot) (fronts : List (List Solution)) (normalize : Bool)
    (filename : Option String) (format : String) :
    Except String (Plot × RenderResult) := do
  let ops ← loopE (pcoordsBody p (gridSide fronts.length) fronts normalize)
    (List.range fronts.length)
  pure (p, ⟨RenderOp.suptitle p.plot_title :: ops, pcoordsOutput filename format⟩)

/-- The argument of Plot.plot: either a flat list of solutions or a list of
fronts. The source distinguishes the two with isinstance(front[0], list). -/
inductive FrontInput where
  | flat (solutions : List Solution)
  | nested (fronts : List (List Solution))
  deriving DecidableEq, Repr

/-- Lines 57-58 of the source: front[0] is evaluated (raising IndexError on
an empty argument) and a flat front is wrapped into a singleton list. -/
def wrapFront : FrontInput → Except String (List (List Solution))
  | FrontInput.flat [] => Except.error "IndexError"
  | FrontInput.flat (s :: rest) => Except.ok [s :: rest]
  | FrontInput.nested [] => Except.error "IndexError"
  | FrontInput.nested (f :: rest) => Except.ok (f :: rest)

/-- The dispatch on dimension: 2 gives two_dim, 3 gives three_dim, every
other value gives pcoords. -/
def dispatchDim (d : Nat) : Branch :=
  if d = 2 then Branch.two_dim else if d = 3 then Branch.three_dim else Branch.pcoords

/-- Plot.plot: wrap a flat front, read number_of_objectives of the first
solution of the first front, and route to one of the three branches. -/
def Plot.plot (p : Plot) (front : FrontInput) (label : Option (List String))
    (normalize : Bool) (filename : Option String) (format : String) :
    Except String PlotCall := do
  let fronts ← wrapFront front
  let f0 ← pyIndex fronts 0
  let s0 ← pyIndex f0 0
  if s0.number_of_objectives = 2 then
    let r ← p.two_dim fronts label filename format
    pure ⟨r.1, Branch.two_dim, r.2⟩
  else if s0.number_of_objectives = 3 then
    let r ← p.three_dim fronts label filename format
    pure ⟨r.1, Branch.three_dim, r.2⟩
  else
    let r ← p.pcoords fronts normalize filename format
    pure ⟨r.1, Branch.pcoords, r.2⟩

/-- The branch lines 57-67 of the source select, as a function of the
argument alone. -/
def chosenBranch (front : FrontInput) : Except String Branch := do
  let fronts ← wrapFront front
  let f0 ← pyIndex fronts 0
  let s0 ← pyIndex f0 0
  pure (dispatchDim s0.number_of_objectives)

/-- The first solution of the first front of the argument, when it exists. -/
def firstSolution : FrontInput → Option Solution
  | FrontInput.flat l => l.head?
  | FrontInput.nested ls => ls.head? >>= List.head?

/-- The objective values of a list of solutions at coordinate j, with 0 for
missing entries: the total counterpart of objCol. -/
def colD (j : Nat) (sols : List Solution) : List ℚ :=
  sols.map (fun s => s.objectives.getD j 0)

/-! Concrete instances used to evaluate the model on specific inputs. -/

/-- A Plot with every optional input left at its default. -/
def plotDefault : Plot := Plot.init "jMetalPy" none none none

/-- A placeholder successful call, used as the default of extractOk. -/
def defaultPlotCall : PlotCall :=
  ⟨plotDefault, Branch.pcoords, ⟨[], OutputAction.showFig⟩⟩

/-- The payload of a successful Plot.plot call (placeholder on error). -/
def extractOk : Except String PlotCall → PlotCall
  | Except.ok c => c
  | Except.error _ => defaultPlotCall

/-- The payload of a successful branch call (placeholder on error). -/
def extractOkPR : Except String (Plot × RenderResult) → Plot × RenderResult
  | Except.ok v => v
  | Except.error _ => (plotDefault, ⟨[], OutputAction.showFig⟩)

/-- A Plot with a two-coordinate reference point configured. -/
def plotRefPoint2 : Plot := Plot.init "t" none (some [5, 7]) none

/-- A Plot with a three-coordinate reference point configured. -/
def plotRefPoint3 : Plot := Plot.init "t" none (some [1, 2, 3]) none

/-- A Plot with a one-solution two-objective reference front configured. -/
def plotRefFront2 : Plot := Plot.init "t" (some [⟨2, [9, 9]⟩]) none none

/-- A Plot with a one-solution three-objective reference front configured. -/
def plotRefFront3 : Plot := Plot.init "t" (some [⟨3, [9, 9, 9]⟩]) none none

/-- A Plot with a one-solution four-objective reference front configured. -/
def plotRefFront4 : Plot := Plot.init "t" (some [⟨4, [1, 1, 1, 1]⟩]) none none

/-- A three-objective singleton front. -/
def front3d : FrontInput := FrontInput.flat [⟨3, [1, 2, 3]⟩]

/-- A four-objective singleton front (routed to pcoords). -/
def front4d : FrontInput := FrontInput.flat [⟨4, [1, 2, 3, 4]⟩]

/-- A one-objective two-solution front (routed to pcoords). -/
def front1d : FrontInput := FrontInput.flat [⟨1, [0]⟩, ⟨1, [2]⟩]

/-- A two-objective singleton front. -/
def front2d : FrontInput := FrontInput.flat [⟨2, [1, 2]⟩]

/-- Outcome of the 3D branch with a reference point configured. -/
def callRefPoint3d : PlotCall :=
  extractOk (Plot.plot plotRefPoint3 front3d none false none "eps")

/-- Outcome of the pcoords branch with normalization requested. -/
def callNormalized : PlotCall :=
  extractOk (Plot.plot plotDefault front1d none true none "eps")

/-- Outcome of the pcoords branch with a reference front configured. -/
def callPcoordsRefFront : PlotCall :=
  extractOk (Plot.plot plotRefFront4 front4d none false none "eps")

/-- Outcome of the 2D branch with the empty string as filename. -/
def callEmptyFilename : PlotCall :=
  extractOk (Plot.plot plotDefault front2d none false (some "") "png")

/-- Outcome of the 3D branch with a filename and the gif format. -/
def callGif : PlotCall :=
  extractOk (Plot.plot plotDefault front3d none false (some "out") "gif")

/-- Outcome of a plain 2D call. -/
def callPlain2d : PlotCall :=
  extractOk (Plot.plot plotDefault front2d none false none "eps")

/-- Outcome of Plot.two_dim with a reference point configured. -/
def runRefPoint2d : Plot × RenderResult :=
  extractOkPR (Plot.two_dim plotRefPoint2 [[⟨2, [1, 2]⟩]] none none "eps")

/-- Outcome of Plot.three_dim with a reference point configured. -/
def runRefPoint3d : Plot × RenderResult :=
  extractOkPR (Plot.three_dim plotRefPoint3 [[⟨3, [1, 2, 3]⟩]] none none "eps")

/-- Outcome of Plot.two_dim with a reference front configured. -/
def runRefFront2d : Plot × RenderResult :=
  extractOkPR (Plot.two_dim plotRefFront2 [[⟨2, [1, 2]⟩]] none none "eps")

/-- Outcome of Plot.three_dim with a reference front configured. -/
def runRefFront3d : Plot × RenderResult :=
  extractOkPR (Plot.three_dim plotRefFront3 [[⟨3, [1, 2, 3]⟩]] none none "eps")

/-- Outcome of Plot.pcoords with a reference front configured. -/
def runPcoordsRefFront : Plot × RenderResult :=
  extractOkPR (Plot.pcoords plotRefFront4 [[⟨4, [1, 2, 3, 4]⟩]] false none "eps")

/-- Outcome of Plot.pcoords with normalization requested. -/
def runPcoordsNorm : Plot × RenderResult :=
  extractOkPR (Plot.pcoords plotDefault [[⟨1, [0]⟩, ⟨1, [2]⟩]] true none "eps")

/-- Outcome of a plain Plot.two_dim call. -/
def runPlain2d : Plot × RenderResult :=
  extractOkPR (Plot.two_dim plotDefault [[⟨2, [1, 2]⟩]] none none "eps")

section ExceptLemmas

theorem exceptBind_ok {α β : Type} {a : Except String α} {f : α → Except String β} {b : β}
    (h : a >>= f = Except.ok b) : ∃ w, a = Except.ok w ∧ f w = Except.ok b := by
  cases a with
  | error e => simp [Bind.bind, Except.bind] at h
  | ok w => exact ⟨w, rfl, h⟩

theorem exceptMap_ok {α β : Type} {a : Except String α} {g : α → β} {b : β}
    (h : Except.map g a = Except.ok b) : ∃ w, a = Except.ok w ∧ g w = b := by
  cases a with
  | error e => simp [Except.map] at h
  | ok w =>
      refine ⟨w, rfl, ?_⟩
      simpa [Except.map] using h

theorem exceptPure_ok {α : Type} {x y : α} (h : (pure x : Except String α) = Except.ok y) :
    x = y :=
  Except.ok.inj h

theorem pyIndex_ok_iff {α : Type} {l : List α} {i : Nat} {v : α} :
    pyIndex l i = Except.ok v ↔ l.get? i = some v := by
  unfold pyIndex
  cases hg : l.get? i with
  | none => simp
  | some a => simp

theorem pyIndex_ok_getD {α : Type} {l : List α} {i : Nat} {v : α} (d : α)
    (h : pyIndex l i = Except.ok v) : l.getD i d = v := by
  have hg := pyIndex_ok_iff.mp h
  rw [List.get?_eq_getElem?] at hg
  simp [List.getD_eq_get?, hg]

theorem pyIndex_ok_of_lt {α : Type} {l : List α} {i : Nat} (h : i < l.length) (d : α) :
    pyIndex l i = Except.ok (l.getD i d) := by
  rw [pyIndex_ok_iff, List.getD_eq_get?, List.get?_eq_get h]
  rfl

theorem objCol_ok {j : Nat} {sols : List Solution} {xs : List ℚ}
    (h : objCol j sols = Except.ok xs) : xs = colD j sols := by
  induction sols generalizing xs with
  | nil => simpa [colD] using (Except.ok.inj h).symm
  | cons s rest ih =>
      unfold objCol at h
      obtain ⟨x, hx, h⟩ := exceptBind_ok h
      obtain ⟨tl, htl, h⟩ := exceptBind_ok h
      obtain rfl := exceptPure_ok h
      have h1 := pyIndex_ok_getD (0 : ℚ) hx
      have h2 := ih htl
      simp only [colD, List.map_cons] at *
      rw [← h1, h2]

end ExceptLemmas

section LoopLemmas

theorem loopE_ok_cons {f : Nat → Except String (List RenderOp)} {i : Nat} {rest : List Nat}
    {ops : List RenderOp} (h : loopE f (i :: rest) = Except.ok ops) :
    ∃ hd tl, f i = Except.ok hd ∧ loopE f rest = Except.ok tl ∧ ops = hd ++ tl := by
  unfold loopE at h
  obtain ⟨hd, hhd, h⟩ := exceptBind_ok h
  obtain ⟨tl, htl, h⟩ := exceptBind_ok h
  exact ⟨hd, tl, hhd, htl, (exceptPure_ok h).symm⟩

theorem loopE_mem {f : Nat → Except String (List RenderOp)} {l : List Nat}
    {ops : List RenderOp} (h : loopE f l = Except.ok ops) {i : Nat} (hi : i ∈ l) :
    ∃ body, f i = Except.ok body ∧ ∀ op ∈ body, op ∈ ops := by
  induction l generalizing ops with
  | nil => cases hi
  | cons j rest ih =>
      obtain ⟨hd, tl, hhd, htl, rfl⟩ := loopE_ok_cons h
      rcases List.mem_cons.mp hi with rfl | hi'
      · exact ⟨hd, hhd, fun op hop => List.mem_append_left _ hop⟩
      · obtain ⟨body, hb, hsub⟩ := ih htl hi'
        exact ⟨body, hb, fun op hop => List.mem_append_right _ (hsub op hop)⟩

theorem loopE_forall {f : Nat → Except String (List RenderOp)} {l : List Nat}
    {ops : List RenderOp} (h : loopE f l = Except.ok ops)
    (P : RenderOp → Prop)
    (hf : ∀ i ∈ l, ∀ body, f i = Except.ok body → ∀ op ∈ body, P op) :
    ∀ op ∈ ops, P op := by
  induction l generalizing ops with
  | nil =>
      obtain rfl := Except.ok.inj h
      intro op hop
      cases hop
  | cons j rest ih =>
      obtain ⟨hd, tl, hhd, htl, rfl⟩ := loopE_ok_cons h
      intro op hop
      rcases List.mem_append.mp hop with hop' | hop'
      · exact hf j (List.mem_cons_self j rest) hd hhd op hop'
      · exact ih htl (fun i hi body hb => hf i (List.mem_cons_of_mem _ hi) body hb) op hop'

end LoopLemmas

section BranchInversion

theorem two_dim_ok_inv {p : Plot} {fronts : List (List Solution)} {labels : Option (List String)}
    {filename : Option String} {format : String} {p' : Plot} {r : RenderResult}
    (h : Plot.two_dim p fronts labels filename format = Except.ok (p', r)) :
    ∃ reference ops,
      twoDimReference p = Except.ok reference ∧
      loopE (twoDimBody p (gridSide fronts.length) reference fronts labels)
        (List.range fronts.length) = Except.ok ops ∧
      p' = p ∧
      r = ⟨RenderOp.suptitle p.plot_title :: ops, twoDimOutput filename format⟩ := by
  unfold Plot.two_dim at h
  obtain ⟨reference, h1, h⟩ := exceptBind_ok h
  obtain ⟨ops, h2, h⟩ := exceptBind_ok h
  obtain ⟨hp, hr⟩ := Prod.mk.inj (exceptPure_ok h)
  exact ⟨reference, ops, h1, h2, hp.symm, hr.symm⟩

theorem three_dim_ok_inv {p : Plot} {fronts : List (List Solution)}
    {labels : Option (List String)} {filename : Option String} {format : String}
    {p' : Plot} {r : RenderResult}
    (h : Plot.three_dim p fronts labels filename format = Except.ok (p', r)) :
    ∃ ops,
      loopE (threeDimBody p (gridSide fronts.length) fronts labels)
        (List.range fronts.length) = Except.ok ops ∧
      p' = p ∧
      r = ⟨RenderOp.suptitle p.plot_title :: ops, threeDimOutput filename format⟩ := by
  unfold Plot.three_dim at h
  obtain ⟨ops, h2, h⟩ := exceptBind_ok h
  obtain ⟨hp, hr⟩ := Prod.mk.inj (exceptPure_ok h)
  exact ⟨ops, h2, hp.symm, hr.symm⟩

theorem pcoords_ok_inv {p : Plot} {fronts : List (List Solution)} {normalize : Bool}
    {filename : Option String} {format : String} {p' : Plot} {r : RenderResult}
    (h : Plot.pcoords p fronts normalize filename format = Except.ok (p', r)) :
    ∃ ops,
      loopE (pcoordsBody p (gridSide fronts.length) fronts normalize)
        (List.range fronts.length) = Except.ok ops ∧
      p' = p ∧
      r = ⟨RenderOp.suptitle p.plot_title :: ops, pcoordsOutput filename format⟩ := by
  unfold Plot.pcoords at h
  obtain ⟨ops, h2, h⟩ := exceptBind_ok h
  obtain ⟨hp, hr⟩ := Prod.mk.inj (exceptPure_ok h)
  exact ⟨ops, h2, hp.symm, hr.symm⟩

theorem plot_ok_inv {p : Plot} {front : FrontInput} {label : Option (List String)}
    {normalize : Bool} {filename : Option String} {format : String} {c : PlotCall}
    (h : Plot.plot p front label normalize filename format = Except.ok c) :
    ∃ fronts f0 s0,
      wrapFront front = Except.ok fronts ∧
      pyIndex fronts 0 = Except.ok f0 ∧
      pyIndex f0 0 = Except.ok s0 ∧
      ((s0.number_of_objectives = 2 ∧ c.branch = Branch.two_dim ∧
          Plot.two_dim p fronts label filename format = Except.ok (c.self, c.render)) ∨
       (s0.number_of_objectives = 3 ∧ c.branch = Branch.three_dim ∧
          Plot.three_dim p fronts label filename format = Except.ok (c.self, c.render)) ∨
       (s0.number_of_objectives ≠ 2 ∧ s0.number_of_objectives ≠ 3 ∧
          c.branch = Branch.pcoords ∧
          Plot.pcoords p fronts normalize filename format = Except.ok (c.self, c.render))) := by
  unfold Plot.plot at h
  obtain ⟨fronts, h1, h⟩ := exceptBind_ok h
  obtain ⟨f0, h2, h⟩ := exceptBind_ok h
  obtain ⟨s0, h3, h⟩ := exceptBind_ok h
  refine ⟨fronts, f0, s0, h1, h2, h3, ?_⟩
  split at h
  case isTrue hdim =>
    obtain ⟨rr, hr, h⟩ := exceptBind_ok h
    obtain rfl := exceptPure_ok h
    left
    exact ⟨hdim, rfl, by rw [Prod.mk.eta]; exact hr⟩
  case isFalse hdim2 =>
    split at h
    case isTrue hdim =>
      obtain ⟨rr, hr, h⟩ := exceptBind_ok h
      obtain rfl := exceptPure_ok h
      right; left
      exact ⟨hdim, rfl, by rw [Prod.mk.eta]; exact hr⟩
    case isFalse hdim3 =>
      obtain ⟨rr, hr, h⟩ := exceptBind_ok h
      obtain rfl := exceptPure_ok h
      right; right
      exact ⟨hdim2, hdim3, rfl, by rw [Prod.mk.eta]; exact hr⟩

end BranchInversion

section BodyInversion

theorem titleOpsCalc_true {labels : Option (List String)} {i : Nat} {t' : List RenderOp}
    (htl : truthyList labels = true) (h : titleOpsCalc labels i = Except.ok t') :
    ∃ t, pyIndex (labels.getD []) i = Except.ok t ∧ t' = [RenderOp.setTitle (i + 1) t] := by
  unfold titleOpsCalc at h
  rw [if_pos htl] at h
  obtain ⟨t, ht, hteq⟩ := exceptMap_ok h
  exact ⟨t, ht, hteq.symm⟩

theorem titleOpsCalc_false {labels : Option (List String)} {i : Nat} {t' : List RenderOp}
    (htl : truthyList labels = false) (h : titleOpsCalc labels i = Except.ok t') : t' = [] := by
  unfold titleOpsCalc at h
  rw [if_neg (by simp [htl])] at h
  exact (exceptPure_ok h).symm

theorem refPointOpsCalc_true {p : Plot} {rp' : List RenderOp}
    (htp : truthyList p.reference_point = true) (h : refPointOpsCalc p = Except.ok rp') :
    ∃ x y, pyIndex (p.reference_point.getD []) 0 = Except.ok x ∧
      pyIndex (p.reference_point.getD []) 1 = Except.ok y ∧
      rp' = [RenderOp.refPoint2d x y] := by
  unfold refPointOpsCalc at h
  rw [if_pos htp] at h
  obtain ⟨x, hx, h⟩ := exceptBind_ok h
  obtain ⟨y, hy, h⟩ := exceptBind_ok h
  exact ⟨x, y, hx, hy, (exceptPure_ok h).symm⟩

theorem refPointOpsCalc_false {p : Plot} {rp' : List RenderOp}
    (htp : truthyList p.reference_point = false) (h : refPointOpsCalc p = Except.ok rp') :
    rp' = [] := by
  unfold refPointOpsCalc at h
  rw [if_neg (by simp [htp])] at h
  exact (exceptPure_ok h).symm

theorem axisLabelOpsCalc_true {p : Plot} {ax' : List RenderOp}
    (hta : truthyList p.axis_labels = true) (h : axisLabelOpsCalc p = Except.ok ax') :
    ∃ xl yl, pyIndex (p.axis_labels.getD []) 0 = Except.ok xl ∧
      pyIndex (p.axis_labels.getD []) 1 = Except.ok yl ∧
      ax' = [RenderOp.xlabel xl, RenderOp.ylabel yl] := by
  unfold axisLabelOpsCalc at h
  rw [if_pos hta] at h
  obtain ⟨xl, hxl, h⟩ := exceptBind_ok h
  obtain ⟨yl, hyl, h⟩ := exceptBind_ok h
  exact ⟨xl, yl, hxl, hyl, (exceptPure_ok h).symm⟩

theorem axisLabelOpsCalc_false {p : Plot} {ax' : List RenderOp}
    (hta : truthyList p.axis_labels = false) (h : axisLabelOpsCalc p = Except.ok ax') :
    ax' = [] := by
  unfold axisLabelOpsCalc at h
  rw [if_neg (by simp [hta])] at h
  exact (exceptPure_ok h).symm

theorem refFront3dOpsCalc_true {p : Plot} {i : Nat} {ro' : List RenderOp}
    (htf : truthyList p.reference_front = true) (h : refFront3dOpsCalc p i = Except.ok ro') :
    ∃ rxs rys rzs,
      objCol 0 (p.reference_front.getD []) = Except.ok rxs ∧
      objCol 1 (p.reference_front.getD []) = Except.ok rys ∧
      objCol 2 (p.reference_front.getD []) = Except.ok rzs ∧
      ro' = [RenderOp.refFront3d (i + 1) rxs rys rzs] := by
  unfold refFront3dOpsCalc at h
  rw [if_pos htf] at h
  obtain ⟨rxs, hrxs, h⟩ := exceptBind_ok h
  obtain ⟨rys, hrys, h⟩ := exceptBind_ok h
  obtain ⟨rzs, hrzs, h⟩ := exceptBind_ok h
  exact ⟨rxs, rys, rzs, hrxs, hrys, hrzs, (exceptPure_ok h).symm⟩

theorem refFront3dOpsCalc_false {p : Plot} {i : Nat} {ro' : List RenderOp}
    (htf : truthyList p.reference_front = false) (h : refFront3dOpsCalc p i = Except.ok ro') :
    ro' = [] := by
  unfold refFront3dOpsCalc at h
  rw [if_neg (by simp [htf])] at h
  exact (exceptPure_ok h).symm

theorem twoDimBody_inv {p : Plot} {n : Nat} {reference : Option (List (List ℚ))}
    {fronts : List (List Solution)} {labels : Option (List String)} {i : Nat}
    {body : List RenderOp}
    (h : twoDimBody p n reference fronts labels i = Except.ok body) :
    ∃ fi pr titleOps rpOps axOps,
      pyIndex fronts i = Except.ok fi ∧
      Plot.get_points (some fi) = Except.ok pr ∧
      titleOpsCalc labels i = Except.ok titleOps ∧
      refPointOpsCalc p = Except.ok rpOps ∧
      axisLabelOpsCalc p = Except.ok axOps ∧
      body = [RenderOp.addSubplot (i + 1) n n, RenderOp.scatter2d (i + 1) pr.1]
        ++ titleOps
        ++ (if truthyList p.reference_front then
              [RenderOp.refFront2d (i + 1) (reference.getD [])] else [])
        ++ rpOps ++ axOps := by
  unfold twoDimBody at h
  obtain ⟨fi, hfi, h⟩ := exceptBind_ok h
  obtain ⟨pr, hpr, h⟩ := exceptBind_ok h
  obtain ⟨titleOps, hto, h⟩ := exceptBind_ok h
  obtain ⟨rpOps, hrp, h⟩ := exceptBind_ok h
  obtain ⟨axOps, hax, h⟩ := exceptBind_ok h
  obtain rfl := exceptPure_ok h
  exact ⟨fi, pr, titleOps, rpOps, axOps, hfi, hpr, hto, hrp, hax, rfl⟩

theorem threeDimBody_inv {p : Plot} {n : Nat} {fronts : List (List Solution)}
    {labels : Option (List String)} {i : Nat} {body : List RenderOp}
    (h : threeDimBody p n fronts labels i = Except.ok body) :
    ∃ fi xs ys zs titleOps refOps,
      pyIndex fronts i = Except.ok fi ∧
      objCol 0 fi = Except.ok xs ∧
      objCol 1 fi = Except.ok ys ∧
      objCol 2 fi = Except.ok zs ∧
      titleOpsCalc labels i = Except.ok titleOps ∧
      refFront3dOpsCalc p i = Except.ok refOps ∧
      body = [RenderOp.addSubplot (i + 1) n n, RenderOp.scatter3d (i + 1) xs ys zs]
        ++ titleOps ++ refOps
        ++ (if truthyList p.reference_point then [] else [])
        ++ [RenderOp.axStyle3d (i + 1)] := by
  unfold threeDimBody at h
  obtain ⟨fi, hfi, h⟩ := exceptBind_ok h
  obtain ⟨xs, hxs, h⟩ := exceptBind_ok h
  obtain ⟨ys, hys, h⟩ := exceptBind_ok h
  obtain ⟨zs, hzs, h⟩ := exceptBind_ok h
  obtain ⟨titleOps, hto, h⟩ := exceptBind_ok h
  obtain ⟨refOps, hro, h⟩ := exceptBind_ok h
  obtain rfl := exceptPure_ok h
  exact ⟨fi, xs, ys, zs, titleOps, refOps, hfi, hxs, hys, hzs, hto, hro, rfl⟩

theorem pcoordsBody_inv {p : Plot} {n : Nat} {fronts : List (List Solution)}
    {normalize : Bool} {i : Nat} {body : List RenderOp}
    (h : pcoordsBody p n fronts normalize i = Except.ok body) :
    ∃ fi pr,
      pyIndex fronts i = Except.ok fi ∧
      Plot.get_points (some fi) = Except.ok pr ∧
      body = [RenderOp.addSubplot (i + 1) n n,
        RenderOp.pcoordsPlot (i + 1) (if normalize then minmaxNormalize pr.1 else pr.1),
        RenderOp.removeLegend (i + 1)]
        ++ (if truthyList p.axis_labels then
              [RenderOp.setXTickLabels (i + 1) (p.axis_labels.getD [])] else []) := by
  unfold pcoordsBody at h
  obtain ⟨fi, hfi, h⟩ := exceptBind_ok h
  obtain ⟨pr, hpr, h⟩ := exceptBind_ok h
  obtain rfl := exceptPure_ok h
  exact ⟨fi, pr, hfi, hpr, rfl⟩

end BodyInversion

section DispatchLemmas

theorem dispatchDim_eq_two {d : Nat} : dispatchDim d = Branch.two_dim ↔ d = 2 := by
  unfold dispatchDim
  split
  next h => simp [h]
  next h =>
    split
    next h3 => simp [h, h3]
    next h3 => simp [h, h3]

theorem dispatchDim_eq_three {d : Nat} : dispatchDim d = Branch.three_dim ↔ d = 3 := by
  unfold dispatchDim
  split
  next h => simp [h]
  next h =>
    split
    next h3 => simp [h3]
    next h3 => simp [h, h3]

theorem dispatchDim_eq_pcoords {d : Nat} :
    dispatchDim d = Branch.pcoords ↔ (d ≠ 2 ∧ d ≠ 3) := by
  unfold dispatchDim
  split
  next h => simp [h]
  next h =>
    split
    next h3 => simp [h, h3]
    next h3 => simp [h, h3]

theorem chosenBranch_of_firstSolution {front : FrontInput} {s : Solution}
    (h : firstSolution front = some s) :
    chosenBranch front = Except.ok (dispatchDim s.number_of_objectives) := by
  cases front with
  | flat l =>
      cases l with
      | nil => simp [firstSolution] at h
      | cons a rest =>
          obtain rfl : a = s := by simpa [firstSolution] using h
          rfl
  | nested ls =>
      cases ls with
      | nil => simp [firstSolution] at h
      | cons f rest =>
          cases f with
          | nil => simp [firstSolution] at h
          | cons a arest =>
              obtain rfl : a = s := by simpa [firstSolution] using h
              rfl

theorem firstSolution_of_wrap {front : FrontInput} {fronts : List (List Solution)}
    {f0 : List Solution} {s0 : Solution}
    (h1 : wrapFront front = Except.ok fronts)
    (h2 : pyIndex fronts 0 = Except.ok f0)
    (h3 : pyIndex f0 0 = Except.ok s0) :
    firstSolution front = some s0 := by
  cases front with
  | flat l =>
      cases l with
      | nil => simp [wrapFront] at h1
      | cons a rest =>
          obtain rfl : ([a :: rest] : List (List Solution)) = fronts := Except.ok.inj h1
          obtain rfl : a :: rest = f0 := Except.ok.inj h2
          obtain rfl : a = s0 := Except.ok.inj h3
          rfl
  | nested ls =>
      cases ls with
      | nil => simp [wrapFront] at h1
      | cons f rest =>
          obtain rfl : f :: rest = fronts := Except.ok.inj h1
          obtain rfl : f = f0 := Except.ok.inj h2
          cases f with
          | nil => simp [pyIndex] at h3
          | cons a arest =>
              obtain rfl : a = s0 := Except.ok.inj h3
              rfl

theorem plot_branch_eq {p : Plot} {front : FrontInput} {label : Option (List String)}
    {normalize : Bool} {filename : Option String} {format : String} {c : PlotCall}
    {s : Solution} (hs : firstSolution front = some s)
    (h : Plot.plot p front label normalize filename format = Except.ok c) :
    c.branch = dispatchDim s.number_of_objectives := by
  obtain ⟨fronts, f0, s0, h1, h2, h3, hcase⟩ := plot_ok_inv h
  have hs0 : firstSolution front = some s0 := firstSolution_of_wrap h1 h2 h3
  obtain rfl : s0 = s := Option.some.inj (hs0.symm.trans hs)
  rcases hcase with ⟨hd, hb, _⟩ | ⟨hd, hb, _⟩ | ⟨hd2, hd3, hb, _⟩
  · rw [hb, eq_comm, dispatchDim_eq_two]
    exact hd
  · rw [hb, eq_comm, dispatchDim_eq_three]
    exact hd
  · rw [hb, eq_comm, dispatchDim_eq_pcoords]
    exact ⟨hd2, hd3⟩

theorem plot_self_eq {p : Plot} {front : FrontInput} {label : Option (List String)}
    {normalize : Bool} {filename : Option String} {format : String} {c : PlotCall}
    (h : Plot.plot p front label normalize filename format = Except.ok c) : c.self = p := by
  obtain ⟨fronts, f0, s0, _, _, _, hcase⟩ := plot_ok_inv h
  rcases hcase with ⟨_, _, hr⟩ | ⟨_, _, hr⟩ | ⟨_, _, _, hr⟩
  · obtain ⟨_, _, _, _, hp, _⟩ := two_dim_ok_inv hr
    exact hp
  · obtain ⟨_, _, hp, _⟩ := three_dim_ok_inv hr
    exact hp
  · obtain ⟨_, _, hp, _⟩ := pcoords_ok_inv hr
    exact hp

end DispatchLemmas

section DataLemmas

theorem dfCols_const {rows : List (List ℚ)} {L : Nat} (hne : rows ≠ [])
    (hall : ∀ r ∈ rows, r.length = L) : dfCols rows = L := by
  induction rows with
  | nil => cases hne rfl
  | cons r rest ih =>
      have hr := hall r (List.mem_cons_self r rest)
      cases rest with
      | nil => simp [dfCols, hr]
      | cons b brest =>
          have h2 : dfCols (b :: brest) = L :=
            ih (by simp) (fun x hx => hall x (List.mem_cons_of_mem _ hx))
          simp only [dfCols, List.map_cons, List.foldr_cons] at h2 ⊢
          rw [hr, h2]
          exact Nat.max_self L

theorem get_points_some {sols : List Solution} {pr : List (List ℚ) × Nat}
    (h : Plot.get_points (some sols) = Except.ok pr) :
    pr = (sols.map Solution.objectives, dfCols (sols.map Solution.objectives)) :=
  (Except.ok.inj h).symm

theorem twoDimReference_truthy {p : Plot} {reference : Option (List (List ℚ))}
    (htf : truthyList p.reference_front = true)
    (h : twoDimReference p = Except.ok reference) :
    reference = some ((p.reference_front.getD []).map Solution.objectives) := by
  unfold twoDimReference at h
  rw [if_pos htf] at h
  cases hrf : p.reference_front with
  | none => rw [hrf] at htf; simp [truthyList] at htf
  | some l =>
      rw [hrf] at h
      obtain ⟨w, hw, hmap⟩ := exceptMap_ok h
      obtain rfl := get_points_some hw
      simpa using hmap.symm

end DataLemmas

section OpKindLemmas

theorem titleOps_ref_free {labels : Option (List String)} {i : Nat} {t' : List RenderOp}
    (h : titleOpsCalc labels i = Except.ok t') :
    ∀ op ∈ t', RenderOp.isRefPoint op = false ∧ RenderOp.isRefFront op = false := by
  cases htl : truthyList labels with
  | true =>
      obtain ⟨t, _, rfl⟩ := titleOpsCalc_true htl h
      intro op hop
      obtain rfl := List.mem_singleton.mp hop
      exact ⟨rfl, rfl⟩
  | false =>
      obtain rfl := titleOpsCalc_false htl h
      intro op hop
      cases hop

theorem axisLabelOps_ref_free {p : Plot} {ax' : List RenderOp}
    (h : axisLabelOpsCalc p = Except.ok ax') :
    ∀ op ∈ ax', RenderOp.isRefPoint op = false ∧ RenderOp.isRefFront op = false := by
  cases hta : truthyList p.axis_labels with
  | true =>
      obtain ⟨xl, yl, _, _, rfl⟩ := axisLabelOpsCalc_true hta h
      intro op hop
      rcases List.mem_cons.mp hop with rfl | hop'
      · exact ⟨rfl, rfl⟩
      · obtain rfl := List.mem_singleton.mp hop'
        exact ⟨rfl, rfl⟩
  | false =>
      obtain rfl := axisLabelOpsCalc_false hta h
      intro op hop
      cases hop

theorem refFront3dOps_no_refPoint {p : Plot} {i : Nat} {ro' : List RenderOp}
    (h : refFront3dOpsCalc p i = Except.ok ro') :
    ∀ op ∈ ro', RenderOp.isRefPoint op = false := by
  cases htf : truthyList p.reference_front with
  | true =>
      obtain ⟨rxs, rys, rzs, _, _, _, rfl⟩ := refFront3dOpsCalc_true htf h
      intro op hop
      obtain rfl := List.mem_singleton.mp hop
      rfl
  | false =>
      obtain rfl := refFront3dOpsCalc_false htf h
      intro op hop
      cases hop

theorem threeDimBody_no_refPoint {p : Plot} {n : Nat} {fronts : List (List Solution)}
    {labels : Option (List String)} {i : Nat} {body : List RenderOp}
    (h : threeDimBody p n fronts labels i = Except.ok body) :
    ∀ op ∈ body, RenderOp.isRefPoint op = false := by
  obtain ⟨fi, xs, ys, zs, titleOps, refOps, _, _, _, _, hto, hro, rfl⟩ := threeDimBody_inv h
  intro op hop
  rcases List.mem_append.mp hop with hop | hop'
  · rcases List.mem_append.mp hop with hop | hop'
    · rcases List.mem_append.mp hop with hop | hop'
      · rcases List.mem_append.mp hop with hop | hop'
        · rcases List.mem_cons.mp hop with rfl | hop''
          · rfl
          · obtain rfl := List.mem_singleton.mp hop''
            rfl
        · exact (titleOps_ref_free hto op hop').1
      · exact refFront3dOps_no_refPoint hro op hop'
    · revert hop'
      split
      · intro hop'; cases hop'
      · intro hop'; cases hop'
  · obtain rfl := List.mem_singleton.mp hop'
    rfl

theorem pcoordsBody_ref_free {p : Plot} {n : Nat} {fronts : List (List Solution)}
    {normalize : Bool} {i : Nat} {body : List RenderOp}
    (h : pcoordsBody p n fronts normalize i = Except.ok body) :
    ∀ op ∈ body, RenderOp.isRefPoint op = false ∧ RenderOp.isRefFront op = false := by
  obtain ⟨fi, pr, _, _, rfl⟩ := pcoordsBody_inv h
  intro op hop
  rcases List.mem_append.mp hop with hop | hop'
  · rcases List.mem_cons.mp hop with rfl | hop'
    · exact ⟨rfl, rfl⟩
    · rcases List.mem_cons.mp hop' with rfl | hop''
      · exact ⟨rfl, rfl⟩
      · obtain rfl := List.mem_singleton.mp hop''
        exact ⟨rfl, rfl⟩
  · revert hop'
    split
    · intro hop'
      obtain rfl := List.mem_singleton.mp hop'
      exact ⟨rfl, rfl⟩
    · intro hop'; cases hop'

end OpKindLemmas

section SubplotLemmas

theorem axisLabelOps_subplot_none {p : Plot} {ax' : List RenderOp}
    (h : axisLabelOpsCalc p = Except.ok ax') :
    ∀ op ∈ ax', RenderOp.subplotIdx op = none := by
  cases hta : truthyList p.axis_labels with
  | true =>
      obtain ⟨xl, yl, _, _, rfl⟩ := axisLabelOpsCalc_true hta h
      intro op hop
      rcases List.mem_cons.mp hop with rfl | hop'
      · rfl
      · obtain rfl := List.mem_singleton.mp hop'
        rfl
  | false =>
      obtain rfl := axisLabelOpsCalc_false hta h
      intro op hop
      cases hop

theorem titleOps_subplot {labels : Option (List String)} {i : Nat} {t' : List RenderOp}
    (h : titleOpsCalc labels i = Except.ok t') :
    ∀ op ∈ t', ∀ j, RenderOp.subplotIdx op = some j → j = i + 1 := by
  cases htl : truthyList labels with
  | true =>
      obtain ⟨t, _, rfl⟩ := titleOpsCalc_true htl h
      intro op hop j hj
      obtain rfl := List.mem_singleton.mp hop
      exact (Option.some.inj hj).symm
  | false =>
      obtain rfl := titleOpsCalc_false htl h
      intro op hop
      cases hop

theorem twoDimBody_subplot {p : Plot} {n : Nat} {reference : Option (List (List ℚ))}
    {fronts : List (List Solution)} {labels : Option (List String)} {i : Nat}
    {body : List RenderOp}
    (h : twoDimBody p n reference fronts labels i = Except.ok body) :
    ∀ op ∈ body, ∀ j, RenderOp.subplotIdx op = some j → j = i + 1 := by
  obtain ⟨fi, pr, titleOps, rpOps, axOps, _, _, hto, hrp, hax, rfl⟩ := twoDimBody_inv h
  intro op hop j hj
  rcases List.mem_append.mp hop with hop | hop'
  · rcases List.mem_append.mp hop with hop | hop'
    · rcases List.mem_append.mp hop with hop | hop'
      · rcases List.mem_append.mp hop with hop | hop'
        · rcases List.mem_cons.mp hop with rfl | hop''
          · exact (Option.some.inj hj).symm
          · obtain rfl := List.mem_singleton.mp hop''
            exact (Option.some.inj hj).symm
        · exact titleOps_subplot hto op hop' j hj
      · revert hop'
        split
        · intro hop'
          obtain rfl := List.mem_singleton.mp hop'
          exact (Option.some.inj hj).symm
        · intro hop'; cases hop'
    · cases htp : truthyList p.reference_point with
      | true =>
          obtain ⟨x, y, _, _, rfl⟩ := refPointOpsCalc_true htp hrp
          obtain rfl := List.mem_singleton.mp hop'
          cases hj
      | false =>
          obtain rfl := refPointOpsCalc_false htp hrp
          cases hop'
  · have hnone := axisLabelOps_subplot_none hax op hop'
    rw [hnone] at hj
    cases hj

theorem threeDimBody_subplot {p : Plot} {n : Nat} {fronts : List (List Solution)}
    {labels : Option (List String)} {i : Nat} {body : List RenderOp}
    (h : threeDimBody p n fronts labels i = Except.ok body) :
    ∀ op ∈ body, ∀ j, RenderOp.subplotIdx op = some j → j = i + 1 := by
  obtain ⟨fi, xs, ys, zs, titleOps, refOps, _, _, _, _, hto, hro, rfl⟩ := threeDimBody_inv h
  intro op hop j hj
  rcases List.mem_append.mp hop with hop | hop'
  · rcases List.mem_append.mp hop with hop | hop'
    · rcases List.mem_append.mp hop with hop | hop'
      · rcases List.mem_append.mp hop with hop | hop'
        · rcases List.mem_cons.mp hop with rfl | hop''
          · exact (Option.some.inj hj).symm
          · obtain rfl := List.mem_singleton.mp hop''
            exact (Option.some.inj hj).symm
        · exact titleOps_subplot hto op hop' j hj
      · cases htf : truthyList p.reference_front with
        | true =>
            obtain ⟨rxs, rys, rzs, _, _, _, rfl⟩ := refFront3dOpsCalc_true htf hro
            obtain rfl := List.mem_singleton.mp hop'
            exact (Option.some.inj hj).symm
        | false =>
            obtain rfl := refFront3dOpsCalc_false htf hro
            cases hop'
    · revert hop'
      split
      · intro hop'; cases hop'
      · intro hop'; cases hop'
  · obtain rfl := List.mem_singleton.mp hop'
    exact (Option.some.inj hj).symm

theorem pcoordsBody_subplot {p : Plot} {n : Nat} {fronts : List (List Solution)}
    {normalize : Bool} {i : Nat} {body : List RenderOp}
    (h : pcoordsBody p n fronts normalize i = Except.ok body) :
    ∀ op ∈ body, ∀ j, RenderOp.subplotIdx op = some j → j = i + 1 := by
  obtain ⟨fi, pr, _, _, rfl⟩ := pcoordsBody_inv h
  intro op hop j hj
  rcases List.mem_append.mp hop with hop | hop'
  · rcases List.mem_cons.mp hop with rfl | hop'
    · exact (Option.some.inj hj).symm
    · rcases List.mem_cons.mp hop' with rfl | hop''
      · exact (Option.some.inj hj).symm
      · obtain rfl := List.mem_singleton.mp hop''
        exact (Option.some.inj hj).symm
  · revert hop'
    split
    · intro hop'
      obtain rfl := List.mem_singleton.mp hop'
      exact (Option.some.inj hj).symm
    · intro hop'; cases hop'

end SubplotLemmas

section GridLemmas

theorem le_gridSide_sq (k : Nat) : k ≤ gridSide k * gridSide k := by
  unfold gridSide
  split
  next h => simp [h]
  next h =>
    have h1 := Nat.lt_succ_sqrt (k - 1)
    simp only [Nat.succ_eq_add_one] at h1
    omega

theorem gridSide_le {k m : Nat} (h : k ≤ m * m) : gridSide k ≤ m := by
  unfold gridSide
  split
  next hk => exact Nat.zero_le m
  next hk =>
    have h1 : k - 1 < m * m := by omega
    have h2 := Nat.sqrt_lt.mpr h1
    omega

end GridLemmas

/-! The claims. -/

/-- Claim C1: for every front passed to Plot.plot (a flat list of solutions
being wrapped into a singleton list of fronts), exactly one of the three
rendering branches runs, determined by the first solution of the first front:
two_dim exactly when its number_of_objectives equals 2, three_dim exactly when
it equals 3, and pcoords for every other value (including 1); every successful
Plot.plot call takes exactly the branch so chosen. -/
theorem C1_branch_dispatch (front : FrontInput) (s : Solution)
    (hs : firstSolution front = some s) :
    (chosenBranch front = Except.ok Branch.two_dim ↔ s.number_of_objectives = 2) ∧
    (chosenBranch front = Except.ok Branch.three_dim ↔ s.number_of_objectives = 3) ∧
    (chosenBranch front = Except.ok Branch.pcoords ↔
      (s.number_of_objectives ≠ 2 ∧ s.number_of_objectives ≠ 3)) ∧
    (∀ p label normalize filename format c,
      Plot.plot p front label normalize filename format = Except.ok c →
      chosenBranch front = Except.ok c.branch) := by
  have hcb := chosenBranch_of_firstSolution hs
  rw [hcb]
  refine ⟨?_, ?_, ?_, ?_⟩
  · simp [Except.ok.injEq, dispatchDim_eq_two]
  · simp [Except.ok.injEq, dispatchDim_eq_three]
  · simp [Except.ok.injEq, dispatchDim_eq_pcoords]
  · intro p label normalize filename format c h
    rw [plot_branch_eq hs h]

/-- Witness for C1 at concrete inputs: a two-objective first solution selects
the 2D branch and a one-objective first solution selects pcoords. -/
theorem C1_witness :
    chosenBranch front2d = Except.ok Branch.two_dim ∧
    chosenBranch front1d = Except.ok Branch.pcoords :=
  ⟨(C1_branch_dispatch front2d ⟨2, [1, 2]⟩ rfl).1.mpr rfl,
   (C1_branch_dispatch front1d ⟨1, [0]⟩ rfl).2.2.1.mpr (by decide)⟩

/-- Claim C6: the branch chosen by Plot.plot depends only on the
number_of_objectives reported by the first solution of the first front:
two inputs agreeing there take the same branch, whatever their other
solutions, the actual objective vectors, and the remaining arguments. -/
theorem C6_branch_noninterference (f1 f2 : FrontInput) (s1 s2 : Solution)
    (h1 : firstSolution f1 = some s1) (h2 : firstSolution f2 = some s2)
    (heq : s1.number_of_objectives = s2.number_of_objectives) :
    chosenBranch f1 = chosenBranch f2 ∧
    (∀ p label normalize filename format c,
      Plot.plot p f1 label normalize filename format = Except.ok c →
      c.branch = dispatchDim s1.number_of_objectives) := by
  refine ⟨?_, fun p label normalize filename format c h => plot_branch_eq h1 h⟩
  rw [chosenBranch_of_firstSolution h1, chosenBranch_of_firstSolution h2, heq]

/-- Witness for C6: two fronts whose first solutions both report three
objectives (with different actual vectors, nesting, and trailing solutions)
get the same branch; a successful call lands in the dispatched branch. -/
theorem C6_witness :
    chosenBranch (FrontInput.flat [⟨3, [1, 2, 3]⟩, ⟨7, [5]⟩]) =
      chosenBranch (FrontInput.nested [[⟨3, [9]⟩], [⟨2, [0, 0]⟩]]) ∧
    callRefPoint3d.branch = dispatchDim 3 :=
  ⟨(C6_branch_noninterference (FrontInput.flat [⟨3, [1, 2, 3]⟩, ⟨7, [5]⟩])
      (FrontInput.nested [[⟨3, [9]⟩], [⟨2, [0, 0]⟩]]) ⟨3, [1, 2, 3]⟩ ⟨3, [9]⟩
      rfl rfl rfl).1,
   (C6_branch_noninterference front3d front3d ⟨3, [1, 2, 3]⟩ ⟨3, [1, 2, 3]⟩
      rfl rfl rfl).2 plotRefPoint3 none false none "eps" callRefPoint3d rfl⟩

/-- Claim C7: a successful Plot.plot call leaves the instance unchanged:
plot_title, axis_labels, reference_point, reference_front and dimension keep
their values, and the dimension attribute set to None by the constructor is
never updated. -/
theorem C7_plot_frame (p : Plot) (front : FrontInput) (label : Option (List String))
    (normalize : Bool) (filename : Option String) (format : String) (c : PlotCall)
    (h : Plot.plot p front label normalize filename format = Except.ok c) :
    c.self = p ∧
    c.self.plot_title = p.plot_title ∧
    c.self.axis_labels = p.axis_labels ∧
    c.self.reference_point = p.reference_point ∧
    c.self.reference_front = p.reference_front ∧
    c.self.dimension = p.dimension ∧
    (Plot.init p.plot_title p.reference_front p.reference_point p.axis_labels).dimension
      = none := by
  have hp := plot_self_eq h
  rw [hp]
  exact ⟨rfl, rfl, rfl, rfl, rfl, rfl, rfl⟩

/-- Witness for C7: a concrete successful 2D call returns the instance as it
was. -/
theorem C7_witness : callPlain2d.self = plotDefault :=
  (C7_plot_frame plotDefault front2d none false none "eps" callPlain2d rfl).1

/-- Claim C9: calling Plot.plot with a flat non-empty front is identical to
calling it with that front wrapped in a singleton list of fronts: the whole
observable outcome (branch, trace and output) agrees. -/
theorem C9_flat_wrap (p : Plot) (s : Solution) (rest : List Solution)
    (label : Option (List String)) (normalize : Bool) (filename : Option String)
    (format : String) :
    Plot.plot p (FrontInput.flat (s :: rest)) label normalize filename format =
      Plot.plot p (FrontInput.nested [s :: rest]) label normalize filename format := rfl

/-- Claim C10: the grid side n = ceil(sqrt(k)) for k fronts is the least
natural with k <= n * n, and in each of the three rendering branches every
subplot position addressed by the trace lies between 1 and n * n. -/
theorem C10_grid (k : Nat) :
    k ≤ gridSide k * gridSide k ∧
    (∀ m, k ≤ m * m → gridSide k ≤ m) ∧
    (∀ p fronts labels filename format p' r,
      Plot.two_dim p fronts labels filename format = Except.ok (p', r) →
      ∀ op ∈ r.ops, ∀ j, RenderOp.subplotIdx op = some j →
        1 ≤ j ∧ j ≤ gridSide fronts.length * gridSide fronts.length) ∧
    (∀ p fronts labels filename format p' r,
      Plot.three_dim p fronts labels filename format = Except.ok (p', r) →
      ∀ op ∈ r.ops, ∀ j, RenderOp.subplotIdx op = some j →
        1 ≤ j ∧ j ≤ gridSide fronts.length * gridSide fronts.length) ∧
    (∀ p fronts normalize filename format p' r,
      Plot.pcoords p fronts normalize filename format = Except.ok (p', r) →
      ∀ op ∈ r.ops, ∀ j, RenderOp.subplotIdx op = some j →
        1 ≤ j ∧ j ≤ gridSide fronts.length * gridSide fronts.length) := by
  refine ⟨le_gridSide_sq k, fun m hm => gridSide_le hm, ?_, ?_, ?_⟩
  · intro p fronts labels filename format p' r h op hop j hj
    obtain ⟨reference, ops, _, hloop, _, hr⟩ := two_dim_ok_inv h
    subst hr
    rcases List.mem_cons.mp hop with rfl | hop'
    · cases hj
    · refine loopE_forall hloop
        (fun op => ∀ j, RenderOp.subplotIdx op = some j →
          1 ≤ j ∧ j ≤ gridSide fronts.length * gridSide fronts.length)
        ?_ op hop' j hj
      intro i hi body hb op' hop'' j' hj'
      obtain rfl := twoDimBody_subplot hb op' hop'' j' hj'
      have hik : i < fronts.length := List.mem_range.mp hi
      have hkn := le_gridSide_sq fronts.length
      omega
  · intro p fronts labels filename format p' r h op hop j hj
    obtain ⟨ops, hloop, _, hr⟩ := three_dim_ok_inv h
    subst hr
    rcases List.mem_cons.mp hop with rfl | hop'
    · cases hj
    · refine loopE_forall hloop
        (fun op => ∀ j, RenderOp.subplotIdx op = some j →
          1 ≤ j ∧ j ≤ gridSide fronts.length * gridSide fronts.length)
        ?_ op hop' j hj
      intro i hi body hb op' hop'' j' hj'
      obtain rfl := threeDimBody_subplot hb op' hop'' j' hj'
      have hik : i < fronts.length := List.mem_range.mp hi
      have hkn := le_gridSide_sq fronts.length
      omega
  · intro p fronts normalize filename format p' r h op hop j hj
    obtain ⟨ops, hloop, _, hr⟩ := pcoords_ok_inv h
    subst hr
    rcases List.mem_cons.mp hop with rfl | hop'
    · cases hj
    · refine loopE_forall hloop
        (fun op => ∀ j, RenderOp.subplotIdx op = some j →
          1 ≤ j ∧ j ≤ gridSide fronts.length * gridSide fronts.length)
        ?_ op hop' j hj
      intro i hi body hb op' hop'' j' hj'
      obtain rfl := pcoordsBody_subplot hb op' hop'' j' hj'
      have hik : i < fronts.length := List.mem_range.mp hi
      have hkn := le_gridSide_sq fronts.length
      omega

/-- Witness for C10: with five fronts the grid side is at most 3, and a
concrete 2D trace addresses only position 1, inside the 1 x 1 grid. -/
theorem C10_witness :
    gridSide 5 ≤ 3 ∧
    (1 ≤ 1 ∧ 1 ≤ gridSide 1 * gridSide 1) :=
  ⟨(C10_grid 5).2.1 3 (by decide),
   (C10_grid 1).2.2.1 plotDefault [[⟨2, [1, 2]⟩]] none none "eps"
     runPlain2d.1 runPlain2d.2 rfl (RenderOp.addSubplot 1 1 1) (by decide) 1 rfl⟩

/-- Claim C8 counterexample: on solutions with objective vectors of unequal
length, the returned integer (the column count, 2 here) differs from the
length of the second solution objectives vector (1 here), so it is not equal
to the length of each solution objective vector. -/
theorem C8_counterexample :
    Plot.get_points (some [⟨2, [1, 2]⟩, ⟨1, [3]⟩]) = Except.ok ([[1, 2], [3]], 2) ∧
    (([⟨2, [1, 2]⟩, ⟨1, [3]⟩] : List Solution).getD 1 ⟨0, []⟩).objectives.length ≠ 2 :=
  ⟨rfl, by decide⟩

/-- Claim C8 amended: get_points raises exactly when the argument is None;
otherwise it returns one row per solution (row i being the objectives of
solution i) together with the dataframe column count, the maximum
objective-vector length, which equals the common length whenever all the
solutions agree on it. -/
theorem C8_get_points (sols : List Solution) :
    Plot.get_points none = Except.error "Front is none!" ∧
    (∀ e, Plot.get_points (some sols) ≠ Except.error e) ∧
    Plot.get_points (some sols) =
      Except.ok (sols.map Solution.objectives, dfCols (sols.map Solution.objectives)) ∧
    (sols.map Solution.objectives).length = sols.length ∧
    (∀ L, sols ≠ [] → (∀ s ∈ sols, s.objectives.length = L) →
      dfCols (sols.map Solution.objectives) = L) := by
  refine ⟨rfl, ?_, rfl, by simp, ?_⟩
  · intro e h
    simp [Plot.get_points] at h
  · intro L hne hall
    refine dfCols_const ?_ ?_
    · simpa using hne
    · intro row hrow
      obtain ⟨s, hs, rfl⟩ := List.mem_map.mp hrow
      exact hall s hs

/-- Witness for C8: on two solutions of common objective length 2 the column
count is 2, and get_points never raises on a present (even empty) list. -/
theorem C8_witness :
    dfCols (([⟨2, [1, 2]⟩, ⟨2, [3, 4]⟩] : List Solution).map Solution.objectives) = 2 ∧
    (∀ e, Plot.get_points (some ([] : List Solution)) ≠ Except.error e) :=
  ⟨(C8_get_points [⟨2, [1, 2]⟩, ⟨2, [3, 4]⟩]).2.2.2.2 2 (by decide) (by decide),
   (C8_get_points []).2.1⟩

/-- Claim C2 counterexample: with a reference point configured, a concrete
call takes the 3D branch and its trace contains no reference point drawing at
all, unlike the 2D branch: the reference point check of the 3D branch is an
empty todo. -/
theorem C2_counterexample :
    truthyList plotRefPoint3.reference_point = true ∧
    Plot.plot plotRefPoint3 front3d none false none "eps" = Except.ok callRefPoint3d ∧
    callRefPoint3d.branch = Branch.three_dim ∧
    callRefPoint3d.render.ops.any RenderOp.isRefPoint = false :=
  ⟨rfl, rfl, rfl, rfl⟩

/-- Claim C2 amended: whenever a truthy reference point is configured the 2D
branch draws it in every loop iteration, while the 3D branch never emits any
reference point drawing (the check body is a pass marked todo). -/
theorem C2_reference_point (p : Plot) (fronts : List (List Solution))
    (labels : Option (List String)) (filename : Option String) (format : String)
    (p' : Plot) (r : RenderResult) :
    (Plot.two_dim p fronts labels filename format = Except.ok (p', r) →
      truthyList p.reference_point = true →
      ∀ i < fronts.length,
        RenderOp.refPoint2d ((p.reference_point.getD []).getD 0 0)
          ((p.reference_point.getD []).getD 1 0) ∈ r.ops) ∧
    (Plot.three_dim p fronts labels filename format = Except.ok (p', r) →
      ∀ op ∈ r.ops, RenderOp.isRefPoint op = false) := by
  constructor
  · intro h htp i hik
    obtain ⟨reference, ops, _, hloop, _, hr⟩ := two_dim_ok_inv h
    subst hr
    obtain ⟨body, hb, hsub⟩ := loopE_mem hloop (List.mem_range.mpr hik)
    obtain ⟨fi, pr, titleOps, rpOps, axOps, _, _, _, hrp, _, rfl⟩ := twoDimBody_inv hb
    obtain ⟨x, y, hx, hy, rfl⟩ := refPointOpsCalc_true htp hrp
    obtain rfl := pyIndex_ok_getD (0 : ℚ) hx
    obtain rfl := pyIndex_ok_getD (0 : ℚ) hy
    refine List.mem_cons_of_mem _ (hsub _ ?_)
    simp [List.mem_append]
  · intro h op hop
    obtain ⟨ops, hloop, _, hr⟩ := three_dim_ok_inv h
    subst hr
    rcases List.mem_cons.mp hop with rfl | hop'
    · rfl
    · exact loopE_forall hloop (fun op => RenderOp.isRefPoint op = false)
        (fun i hi body hb => threeDimBody_no_refPoint hb) op hop'

/-- Witness for C2 amended: a concrete 2D run with reference point (5, 7)
draws it, and a concrete 3D run with a reference point draws nothing of the
kind. -/
theorem C2_witness :
    RenderOp.refPoint2d 5 7 ∈ runRefPoint2d.2.ops ∧
    (∀ op ∈ runRefPoint3d.2.ops, RenderOp.isRefPoint op = false) :=
  ⟨(C2_reference_point plotRefPoint2 [[⟨2, [1, 2]⟩]] none none "eps"
      runRefPoint2d.1 runRefPoint2d.2).1 rfl rfl 0 (by decide),
   (C2_reference_point plotRefPoint3 [[⟨3, [1, 2, 3]⟩]] none none "eps"
      runRefPoint3d.1 runRefPoint3d.2).2 rfl⟩

/-- Claim C4 counterexample: with a reference front configured, a concrete
call takes the pcoords branch and its trace contains no reference front
overlay: the pcoords branch ignores the reference front entirely. -/
theorem C4_counterexample :
    truthyList plotRefFront4.reference_front = true ∧
    Plot.plot plotRefFront4 front4d none false none "eps" =
      Except.ok callPcoordsRefFront ∧
    callPcoordsRefFront.branch = Branch.pcoords ∧
    callPcoordsRefFront.render.ops.any RenderOp.isRefFront = false :=
  ⟨rfl, rfl, rfl, rfl⟩

/-- Claim C4 amended: whenever a truthy reference front is configured, the 2D
and 3D branches overlay it on every subplot they produce; the pcoords branch
never draws a reference front. -/
theorem C4_reference_front (p : Plot) (fronts : List (List Solution))
    (labels : Option (List String)) (normalize : Bool) (filename : Option String)
    (format : String) (p' : Plot) (r : RenderResult) :
    (Plot.two_dim p fronts labels filename format = Except.ok (p', r) →
      truthyList p.reference_front = true →
      ∀ i < fronts.length,
        RenderOp.refFront2d (i + 1)
          ((p.reference_front.getD []).map Solution.objectives) ∈ r.ops) ∧
    (Plot.three_dim p fronts labels filename format = Except.ok (p', r) →
      truthyList p.reference_front = true →
      ∀ i < fronts.length,
        RenderOp.refFront3d (i + 1) (colD 0 (p.reference_front.getD []))
          (colD 1 (p.reference_front.getD []))
          (colD 2 (p.reference_front.getD [])) ∈ r.ops) ∧
    (Plot.pcoords p fronts normalize filename format = Except.ok (p', r) →
      ∀ op ∈ r.ops, RenderOp.isRefFront op = false) := by
  refine ⟨?_, ?_, ?_⟩
  · intro h htf i hik
    obtain ⟨reference, ops, href, hloop, _, hr⟩ := two_dim_ok_inv h
    subst hr
    obtain rfl := twoDimReference_truthy htf href
    obtain ⟨body, hb, hsub⟩ := loopE_mem hloop (List.mem_range.mpr hik)
    obtain ⟨fi, pr, titleOps, rpOps, axOps, _, _, _, _, _, rfl⟩ := twoDimBody_inv hb
    refine List.mem_cons_of_mem _ (hsub _ ?_)
    rw [if_pos htf]
    simp [List.mem_append]
  · intro h htf i hik
    obtain ⟨ops, hloop, _, hr⟩ := three_dim_ok_inv h
    subst hr
    obtain ⟨body, hb, hsub⟩ := loopE_mem hloop (List.mem_range.mpr hik)
    obtain ⟨fi, xs, ys, zs, titleOps, refOps, _, _, _, _, _, hro, rfl⟩ := threeDimBody_inv hb
    obtain ⟨rxs, rys, rzs, hr0, hr1, hr2, rfl⟩ := refFront3dOpsCalc_true htf hro
    obtain rfl := objCol_ok hr0
    obtain rfl := objCol_ok hr1
    obtain rfl := objCol_ok hr2
    refine List.mem_cons_of_mem _ (hsub _ ?_)
    simp [List.mem_append]
  · intro h op hop
    obtain ⟨ops, hloop, _, hr⟩ := pcoords_ok_inv h
    subst hr
    rcases List.mem_cons.mp hop with rfl | hop'
    · rfl
    · exact loopE_forall hloop (fun op => RenderOp.isRefFront op = false)
        (fun i hi body hb => fun op hop => (pcoordsBody_ref_free hb op hop).2) op hop'

/-- Witness for C4 amended: concrete 2D and 3D runs with a reference front
overlay it on subplot 1, and a concrete pcoords run with a reference front
draws nothing of the kind. -/
theorem C4_witness :
    RenderOp.refFront2d 1 [[9, 9]] ∈ runRefFront2d.2.ops ∧
    RenderOp.refFront3d 1 [9] [9] [9] ∈ runRefFront3d.2.ops ∧
    (∀ op ∈ runPcoordsRefFront.2.ops, RenderOp.isRefFront op = false) :=
  ⟨(C4_reference_front plotRefFront2 [[⟨2, [1, 2]⟩]] none false none "eps"
      runRefFront2d.1 runRefFront2d.2).1 rfl rfl 0 (by decide),
   (C4_reference_front plotRefFront3 [[⟨3, [1, 2, 3]⟩]] none false none "eps"
      runRefFront3d.1 runRefFront3d.2).2.1 rfl rfl 0 (by decide),
   (C4_reference_front plotRefFront4 [[⟨4, [1, 2, 3, 4]⟩]] none false none "eps"
      runPcoordsRefFront.1 runPcoordsRefFront.2).2.2 rfl⟩

/-- Claim C3 counterexample: with normalize True the pcoords branch hands the
plotting library min-max normalized values computed by the wrapper itself,
not the raw objective rows: a concrete trace contains the normalized data
[[0], [1]] and does not contain the raw data [[0], [2]]. -/
theorem C3_counterexample :
    Plot.plot plotDefault front1d none true none "eps" = Except.ok callNormalized ∧
    RenderOp.pcoordsPlot 1 [[0], [1]] ∈ callNormalized.render.ops ∧
    RenderOp.pcoordsPlot 1 [[(0 : ℚ)], [2]] ∉ callNormalized.render.ops ∧
    minmaxNormalize [[(0 : ℚ)], [2]] = [[0], [1]] := by
  have h1 : colVals [[(0 : ℚ)], [2]] 0 = [0, 2] := rfl
  have hmm : minmaxNormalize [[(0 : ℚ)], [2]] = [[0], [1]] := by
    norm_num [minmaxNormalize, h1, listMin, listMax]
  have hops : callNormalized.render.ops =
      [RenderOp.suptitle "jMetalPy", RenderOp.addSubplot 1 1 1,
       RenderOp.pcoordsPlot 1 (minmaxNormalize [[(0 : ℚ)], [2]]),
       RenderOp.removeLegend 1] := rfl
  refine ⟨rfl, ?_, ?_, hmm⟩
  · rw [hops, hmm]
    simp
  · rw [hops, hmm]
    intro hmem
    norm_num [List.mem_cons] at hmem
    rcases hmem with h | h | h <;> exact RenderOp.noConfusion h

/-- Claim C3 amended: the 2D and 3D branches pass the raw objective data of
each front to the libraries unchanged; the pcoords branch passes the raw data
when normalize is False and its own column-wise min-max normalization of that
data when normalize is True. -/
theorem C3_data_pipeline (p : Plot) (fronts : List (List Solution))
    (labels : Option (List String)) (normalize : Bool) (filename : Option String)
    (format : String) (p' : Plot) (r : RenderResult) :
    (Plot.two_dim p fronts labels filename format = Except.ok (p', r) →
      ∀ i < fronts.length,
        RenderOp.scatter2d (i + 1)
          ((fronts.getD i []).map Solution.objectives) ∈ r.ops) ∧
    (Plot.three_dim p fronts labels filename format = Except.ok (p', r) →
      ∀ i < fronts.length,
        RenderOp.scatter3d (i + 1) (colD 0 (fronts.getD i []))
          (colD 1 (fronts.getD i [])) (colD 2 (fronts.getD i [])) ∈ r.ops) ∧
    (Plot.pcoords p fronts normalize filename format = Except.ok (p', r) →
      ∀ i < fronts.length,
        RenderOp.pcoordsPlot (i + 1)
          (if normalize then
            minmaxNormalize ((fronts.getD i []).map Solution.objectives)
           else (fronts.getD i []).map Solution.objectives) ∈ r.ops) := by
  refine ⟨?_, ?_, ?_⟩
  · intro h i hik
    obtain ⟨reference, ops, _, hloop, _, hr⟩ := two_dim_ok_inv h
    subst hr
    obtain ⟨body, hb, hsub⟩ := loopE_mem hloop (List.mem_range.mpr hik)
    obtain ⟨fi, pr, titleOps, rpOps, axOps, hfi, hpr, _, _, _, rfl⟩ := twoDimBody_inv hb
    obtain rfl := pyIndex_ok_getD ([] : List Solution) hfi
    obtain rfl := get_points_some hpr
    refine List.mem_cons_of_mem _ (hsub _ ?_)
    simp [List.mem_append]
  · intro h i hik
    obtain ⟨ops, hloop, _, hr⟩ := three_dim_ok_inv h
    subst hr
    obtain ⟨body, hb, hsub⟩ := loopE_mem hloop (List.mem_range.mpr hik)
    obtain ⟨fi, xs, ys, zs, titleOps, refOps, hfi, h0, h1, h2, _, _, rfl⟩ :=
      threeDimBody_inv hb
    obtain rfl := pyIndex_ok_getD ([] : List Solution) hfi
    obtain rfl := objCol_ok h0
    obtain rfl := objCol_ok h1
    obtain rfl := objCol_ok h2
    refine List.mem_cons_of_mem _ (hsub _ ?_)
    simp [List.mem_append]
  · intro h i hik
    obtain ⟨ops, hloop, _, hr⟩ := pcoords_ok_inv h
    subst hr
    obtain ⟨body, hb, hsub⟩ := loopE_mem hloop (List.mem_range.mpr hik)
    obtain ⟨fi, pr, hfi, hpr, rfl⟩ := pcoordsBody_inv hb
    obtain rfl := pyIndex_ok_getD ([] : List Solution) hfi
    obtain rfl := get_points_some hpr
    refine List.mem_cons_of_mem _ (hsub _ ?_)
    simp [List.mem_append]

/-- Witness for C3 amended: a concrete 2D run scatters the raw rows [[1, 2]],
and a concrete pcoords run with normalize True plots the normalized rows. -/
theorem C3_witness :
    RenderOp.scatter2d 1 [[1, 2]] ∈ runPlain2d.2.ops ∧
    RenderOp.pcoordsPlot 1 (minmaxNormalize [[(0 : ℚ)], [2]]) ∈ runPcoordsNorm.2.ops :=
  ⟨(C3_data_pipeline plotDefault [[⟨2, [1, 2]⟩]] none false none "eps"
      runPlain2d.1 runPlain2d.2).1 rfl 0 (by decide),
   (C3_data_pipeline plotDefault [[⟨1, [0]⟩, ⟨1, [2]⟩]] none true none "eps"
      runPcoordsNorm.1 runPcoordsNorm.2).2.2 rfl 0 (by decide)⟩

/-- Claim C5 counterexample: the empty string is a non-None filename, yet the
figure is shown interactively, because the code tests Python truthiness of
the filename rather than comparing it with None. -/
theorem C5_counterexample :
    (some "" : Option String) ≠ none ∧
    Plot.plot plotDefault front2d none false (some "") "png" =
      Except.ok callEmptyFilename ∧
    callEmptyFilename.render.output = OutputAction.showFig :=
  ⟨by simp, rfl, rfl⟩

/-- Claim C5 amended: with a truthy (non-None and non-empty) filename the
figure is always exported: as an animated rotation saved at filename + ".gif"
exactly when the 3D branch runs with format gif, and otherwise as a static
image in the requested format (dpi 200 in 2D, 1000 elsewhere); with a falsy
filename (None or empty) the figure is shown interactively instead. -/
theorem C5_output (p : Plot) (front : FrontInput) (label : Option (List String))
    (normalize : Bool) (filename : Option String) (format : String) (c : PlotCall)
    (h : Plot.plot p front label normalize filename format = Except.ok c) :
    (c.render.output = OutputAction.showFig ↔ truthyStr filename = false) ∧
    (truthyStr filename = true →
      ((c.branch = Branch.three_dim ∧ format = "gif") →
        c.render.output = OutputAction.saveGif (filename.getD "" ++ ".gif")) ∧
      ((c.branch = Branch.three_dim → format ≠ "gif") →
        c.render.output = OutputAction.savefig (filename.getD "") format
          (if c.branch = Branch.two_dim then 200 else 1000)) ∧
      (c.render.output = OutputAction.saveGif (filename.getD "" ++ ".gif") →
        c.branch = Branch.three_dim ∧ format = "gif")) := by
  obtain ⟨fronts, f0, s0, _, _, _, hcase⟩ := plot_ok_inv h
  rcases hcase with ⟨_, hb, hr⟩ | ⟨_, hb, hr⟩ | ⟨_, _, hb, hr⟩
  · obtain ⟨_, _, _, _, _, hrr⟩ := two_dim_ok_inv hr
    rw [hb, hrr]
    cases hts : truthyStr filename <;> simp [twoDimOutput, hts]
  · obtain ⟨_, _, _, hrr⟩ := three_dim_ok_inv hr
    rw [hb, hrr]
    by_cases hfmt : format = "gif"
    · cases hts : truthyStr filename <;> simp [threeDimOutput, hts, hfmt]
    · cases hts : truthyStr filename <;> simp [threeDimOutput, hts, hfmt]
  · obtain ⟨_, _, _, hrr⟩ := pcoords_ok_inv hr
    rw [hb, hrr]
    cases hts : truthyStr filename <;> simp [pcoordsOutput, hts]

/-- Witness for C5 amended: a concrete 3D call with filename and format gif
saves the animated rotation at out.gif, and a concrete call with the empty
string as filename shows the figure. -/
theorem C5_witness :
    callGif.render.output = OutputAction.saveGif "out.gif" ∧
    callEmptyFilename.render.output = OutputAction.showFig :=
  ⟨((C5_output plotDefault front3d none false (some "out") "gif" callGif rfl).2
      rfl).1 ⟨rfl, rfl⟩,
   (C5_output plotDefault front2d none false (some "") "png" callEmptyFilename
      rfl).1.mpr rfl⟩

end Plotting
